import Mathlib

/-!
Verification of the hr-scanner report engine.

This file shallowly embeds the PDF page-flow layout engine (`PdfBuilder`
in the generator module of the repository) and the score post-processing
step (`processAnalysis` in the application module), and proves theorems
about the pagination, rendering and scoring claims.

Modelling conventions:
* JavaScript numbers are modelled as rationals (`ℚ`); `Math.floor` and
  `Math.round` become `Rat.floor`-based functions.
* The jsPDF drawing backend is modelled as a per-page log of paint
  operations (`PaintOp`); font/size/color setters are folded into the
  arguments of the text operation they configure.
* The backend's line-wrapping primitive `doc.splitTextToSize` is an
  explicit function parameter `split : String → ℚ → List String`.
* The page geometry that the constructor reads from the backend
  (`doc.internal.pageSize.getWidth/getHeight`) is passed as the explicit
  parameters `pageWidth` and `pageHeight`.
* The builder state carries a ghost counter `calls` that no engine
  operation touches; it is used only to count invocations of the
  content procedure handed to `addStyledSection`.
-/

-- Layout constants of the generator module.

def MARGIN : ℚ := 15

def FOOTER_HEIGHT : ℚ := 10

def LINE_HEIGHT_MULTIPLIER : ℚ := 3 / 2

def FONT_SIZES_H1 : ℚ := 20

def FONT_SIZES_H2 : ℚ := 16

def FONT_SIZES_H3 : ℚ := 12

def FONT_SIZES_BODY : ℚ := 10

def FONT_SIZES_SMALL : ℚ := 8

def contentWidth (pageWidth : ℚ) : ℚ := pageWidth - MARGIN * 2

/-- JavaScript `Math.floor` on a rational. -/
def jsFloor (q : ℚ) : ℤ := Rat.floor q

/-- JavaScript `Math.round` on a rational (round half toward positive infinity). -/
def jsRound (q : ℚ) : ℤ := Rat.floor (q + 1 / 2)

inductive FontStyle where
  | normal
  | bold
  | italic
deriving DecidableEq

inductive Align where
  | left
  | center
deriving DecidableEq

/-- A primitive paint operation of the drawing backend. Text carries the
font style, size and alignment that the engine set immediately before
drawing it. -/
inductive PaintOp where
  | textOp (lines : List String) (x y : ℚ) (style : FontStyle) (size : ℚ) (align : Align)
  | lineOp (x1 y1 x2 y2 : ℚ)
  | rectOp (x y w h : ℚ) (fill : Bool)
deriving DecidableEq

/-- The mutable state of `PdfBuilder`: the pages already finished
(`donePages`), the paint log of the current page (`curPage`), the
1-based page counter `pageNumber`, the vertical cursor `y`, and the
ghost invocation counter `calls` (never modified by any engine
operation). -/
structure Builder where
  donePages : List (List PaintOp)
  curPage : List PaintOp
  pageNumber : Nat
  y : ℚ
  calls : Nat
deriving DecidableEq

/-- Append a paint operation to the current page. -/
def Builder.paint (b : Builder) (op : PaintOp) : Builder :=
  { b with curPage := b.curPage ++ [op] }

/-- The full page list of the document (`doc.getNumberOfPages()` is its
length). -/
def Builder.allPages (b : Builder) : List (List PaintOp) :=
  b.donePages ++ [b.curPage]

/-- `PdfBuilder.addPageHeader`. -/
def addPageHeader (pageWidth : ℚ) (b : Builder) : Builder :=
  let b := b.paint (.textOp ["HR Screener AI Report"] MARGIN (MARGIN / 2) .normal FONT_SIZES_SMALL .left)
  b.paint (.lineOp MARGIN (MARGIN / 2 + 2) (pageWidth - MARGIN) (MARGIN / 2 + 2))

/-- `PdfBuilder.addPage`: append a backend page unless this is the first
call, increment the page counter, reset the cursor to the margin, and
paint the page header. -/
def addPage (pageWidth : ℚ) (b : Builder) : Builder :=
  let b :=
    if b.pageNumber > 0 then
      { b with donePages := b.donePages ++ [b.curPage], curPage := [] }
    else b
  let b := { b with pageNumber := b.pageNumber + 1, y := MARGIN }
  addPageHeader pageWidth b

/-- `PdfBuilder.checkAndAddPage` (the spec's `ensureSpace`). -/
def checkAndAddPage (pageWidth pageHeight : ℚ) (requiredHeight : ℚ) (b : Builder) : Builder :=
  if b.y + requiredHeight > pageHeight - MARGIN - FOOTER_HEIGHT then addPage pageWidth b else b

/-- `PdfBuilder.addHeader`. -/
def addHeader (pageWidth pageHeight : ℚ) (text : String) (b : Builder) : Builder :=
  let b := checkAndAddPage pageWidth pageHeight 20 b
  let b := b.paint (.textOp [text] (pageWidth / 2) b.y .bold FONT_SIZES_H1 .center)
  { b with y := b.y + FONT_SIZES_H1 * (7 / 10) }

/-- `PdfBuilder.addSubheader`. -/
def addSubheader (pageWidth pageHeight : ℚ) (text : String) (b : Builder) : Builder :=
  let b := checkAndAddPage pageWidth pageHeight 15 b
  let b := b.paint (.textOp [text] MARGIN b.y .bold FONT_SIZES_H2 .left)
  { b with y := b.y + FONT_SIZES_H2 * (9 / 10) }

/-- `PdfBuilder.addSectionTitle`. -/
def addSectionTitle (pageWidth pageHeight : ℚ) (text : String) (b : Builder) : Builder :=
  let b := checkAndAddPage pageWidth pageHeight 10 b
  let b := b.paint (.textOp [text] MARGIN b.y .bold FONT_SIZES_H3 .left)
  { b with y := b.y + FONT_SIZES_H3 * (7 / 10) }

/-- Height of a wrapped text block:
`textLines.length * (FONT_SIZES.BODY * 0.352778) * LINE_HEIGHT_MULTIPLIER`. -/
def textBlockHeight (split : String → ℚ → List String) (s : String) (w : ℚ) : ℚ :=
  ((split s w).length : ℚ) * (FONT_SIZES_BODY * (352778 / 1000000)) * LINE_HEIGHT_MULTIPLIER

/-- `PdfBuilder.addBodyText`; an absent value (`undefined`) is `none`. -/
def addBodyText (split : String → ℚ → List String) (pageWidth pageHeight : ℚ)
    (text : Option String) (style : FontStyle) (b : Builder) : Builder :=
  match text with
  | none => b
  | some s =>
    let textLines := split s (contentWidth pageWidth)
    let textHeight := textBlockHeight split s (contentWidth pageWidth)
    let b := checkAndAddPage pageWidth pageHeight textHeight b
    let b := b.paint (.textOp textLines MARGIN b.y style FONT_SIZES_BODY .left)
    { b with y := b.y + textHeight }

/-- The per-item loop of `PdfBuilder.addBulletList`. -/
def bulletItems (split : String → ℚ → List String) (pageWidth pageHeight : ℚ)
    (items : List String) (b : Builder) : Builder :=
  match items with
  | [] => b
  | item :: rest =>
    let textLines := split item (contentWidth pageWidth - 5)
    let textHeight := textBlockHeight split item (contentWidth pageWidth - 5)
    let b := checkAndAddPage pageWidth pageHeight textHeight b
    let b := b.paint (.textOp ["•"] (MARGIN + 2) b.y .normal FONT_SIZES_BODY .left)
    let b := b.paint (.textOp textLines (MARGIN + 5) b.y .normal FONT_SIZES_BODY .left)
    let b := { b with y := b.y + textHeight }
    bulletItems split pageWidth pageHeight rest b

/-- `PdfBuilder.addBulletList`. -/
def addBulletList (split : String → ℚ → List String) (pageWidth pageHeight : ℚ)
    (items : List String) (b : Builder) : Builder :=
  if items.isEmpty then
    addBodyText split pageWidth pageHeight (some "None listed") .italic b
  else
    bulletItems split pageWidth pageHeight items b

/-- The body of one iteration of the `addBulletList` item loop
(definitionally equal to the step `bulletItems` performs on
`item :: rest`). -/
def bulletStep (split : String → ℚ → List String) (pageWidth pageHeight : ℚ)
    (item : String) (b : Builder) : Builder :=
  let textLines := split item (contentWidth pageWidth - 5)
  let textHeight := textBlockHeight split item (contentWidth pageWidth - 5)
  let b := checkAndAddPage pageWidth pageHeight textHeight b
  let b := b.paint (.textOp ["•"] (MARGIN + 2) b.y .normal FONT_SIZES_BODY .left)
  let b := b.paint (.textOp textLines (MARGIN + 5) b.y .normal FONT_SIZES_BODY .left)
  { b with y := b.y + textHeight }

/-- Candidate scores as used by the engine (field names from the
repository's type module). -/
structure CandidateScores where
  skill_match_score : ℚ
  experience_match_score : ℚ
  education_match_score : ℚ
  semantic_relevance_score : ℚ
  overall_match_score : ℚ
deriving DecidableEq

/-- The slice of `CandidateResult` consumed by the modelled renderers
(rank, resume name and scores). -/
structure CandidateResult where
  rank : Nat
  name : String
  scores : CandidateScores
deriving DecidableEq

/-- The paint loop of `PdfBuilder.addScoreGrid`. -/
def paintScoreItems (itemWidth : ℚ) (items : List (String × ℚ)) (index : Nat) (b : Builder) : Builder :=
  match items with
  | [] => b
  | item :: rest =>
    let cx := MARGIN + itemWidth * (index : ℚ) + itemWidth / 2
    let b := b.paint (.textOp [toString (jsRound item.2) ++ "%"] cx b.y .bold FONT_SIZES_H3 .center)
    let b := b.paint (.textOp [item.1] cx (b.y + 5) .normal FONT_SIZES_SMALL .center)
    paintScoreItems itemWidth rest (index + 1) b

/-- `PdfBuilder.addScoreGrid`. -/
def addScoreGrid (pageWidth pageHeight : ℚ) (scores : CandidateScores) (b : Builder) : Builder :=
  let scoreItems : List (String × ℚ) :=
    [("Semantic Fit", scores.semantic_relevance_score),
     ("Skill Match", scores.skill_match_score),
     ("Experience Match", scores.experience_match_score),
     ("Education Match", scores.education_match_score)]
  let itemWidth := contentWidth pageWidth / 4
  let b := checkAndAddPage pageWidth pageHeight 20 b
  let b := paintScoreItems itemWidth scoreItems 0 b
  { b with y := b.y + 15 }

/-- A rounded percentage cell such as `"87%"`. -/
def pctCell (q : ℚ) : String := toString (jsRound q) ++ "%"

/-- One body row of the summary table. -/
def summaryRow (c : CandidateResult) : List String :=
  [toString c.rank, c.name, pctCell c.scores.overall_match_score,
   pctCell c.scores.skill_match_score, pctCell c.scores.experience_match_score]

/-- The header-cell loop of `PdfBuilder.addSummaryTable` (text drawn at
`currentX + 3, y + 5.5`, advancing `currentX` by the column width). -/
def paintHeaderCells (b : Builder) (cells : List String) (widths : List ℚ) (x yy : ℚ) : Builder :=
  match cells, widths with
  | c :: cs, w :: ws =>
    paintHeaderCells (b.paint (.textOp [c] (x + 3) (yy + 11 / 2) .bold FONT_SIZES_BODY .left)) cs ws (x + w) yy
  | _, _ => b

/-- The cell loop of one body row of the summary table (each cell wrapped
to the column width minus 6). -/
def paintBodyCells (split : String → ℚ → List String) (b : Builder)
    (cells : List String) (widths : List ℚ) (x yy : ℚ) : Builder :=
  match cells, widths with
  | c :: cs, w :: ws =>
    paintBodyCells split (b.paint (.textOp (split c (w - 6)) (x + 3) (yy + 11 / 2) .normal FONT_SIZES_BODY .left)) cs ws (x + w) yy
  | _, _ => b

/-- The body-row loop of `PdfBuilder.addSummaryTable`: zebra fill on odd
row indices, then the cells, then advance the cursor by the row height 8. -/
def paintBodyRows (split : String → ℚ → List String) (pageWidth : ℚ)
    (widths : List ℚ) (rows : List (List String)) (rowIndex : Nat) (b : Builder) : Builder :=
  match rows with
  | [] => b
  | row :: rest =>
    let b := if rowIndex % 2 ≠ 0 then b.paint (.rectOp MARGIN b.y (contentWidth pageWidth) 8 true) else b
    let b := paintBodyCells split b row widths MARGIN b.y
    let b := { b with y := b.y + 8 }
    paintBodyRows split pageWidth widths rest (rowIndex + 1) b

/-- The column-separator loop of `PdfBuilder.addSummaryTable`: for each
width, advance `x` and draw a vertical line from `y1` to `y2`. -/
def paintVertLines (b : Builder) (widths : List ℚ) (x y1 y2 : ℚ) : Builder :=
  match widths with
  | [] => b
  | w :: ws => paintVertLines (b.paint (.lineOp (x + w) y1 (x + w) y2)) ws (x + w) y1 y2

/-- `PdfBuilder.addSummaryTable`. Note that `startY` is recorded before
the capacity check, exactly as in the source. -/
def addSummaryTable (split : String → ℚ → List String) (pageWidth pageHeight : ℚ)
    (candidates : List CandidateResult) (b : Builder) : Builder :=
  let body := candidates.map summaryRow
  let startY := b.y
  let colWidths : List ℚ := [15, 85, 25, 25, 25]
  let b := checkAndAddPage pageWidth pageHeight (((body.length : ℚ) + 1) * 8) b
  let b := b.paint (.rectOp MARGIN b.y (contentWidth pageWidth) 8 true)
  let b := paintHeaderCells b ["Rank", "Name", "Overall", "Skill", "Experience"] colWidths MARGIN b.y
  let b := { b with y := b.y + 8 }
  let b := paintBodyRows split pageWidth colWidths body 0 b
  let b := b.paint (.rectOp MARGIN startY (contentWidth pageWidth) (b.y - startY) false)
  let b := paintVertLines b colWidths.dropLast MARGIN startY b.y
  { b with y := b.y + 5 }

/-- `PdfBuilder.addSeparator`. -/
def addSeparator (pageWidth pageHeight : ℚ) (b : Builder) : Builder :=
  let b := checkAndAddPage pageWidth pageHeight 10 b
  let b := { b with y := b.y + 5 }
  let b := b.paint (.lineOp MARGIN b.y (pageWidth - MARGIN) b.y)
  { b with y := b.y + 5 }

/-- The first pass of `PdfBuilder.addStyledSection` (minimum-height
check, title, gaps, and the measuring invocation of the content
procedure), returning the resulting state together with the recorded
`startY` and `contentStartY`. -/
def styledFirstPart (pageWidth pageHeight : ℚ) (title : String)
    (content : Builder → Builder) (b : Builder) : Builder × ℚ × ℚ :=
  let b := checkAndAddPage pageWidth pageHeight 15 b
  let startY := b.y
  let b := { b with y := b.y + 5 }
  let b := addSectionTitle pageWidth pageHeight title b
  let b := { b with y := b.y + 2 }
  let contentStartY := b.y
  (content b, startY, contentStartY)

/-- The redraw pass of `PdfBuilder.addStyledSection` (identical in both
branches of the source): reposition the cursor, repaint the title and
gap, re-invoke the content procedure. -/
def styledRedraw (pageWidth pageHeight : ℚ) (title : String)
    (content : Builder → Builder) (fromY : ℚ) (b : Builder) : Builder :=
  let b := { b with y := fromY }
  let b := addSectionTitle pageWidth pageHeight title b
  let b := { b with y := b.y + 2 }
  content b

/-- `PdfBuilder.addStyledSection`. -/
def addStyledSection (pageWidth pageHeight : ℚ) (title : String)
    (content : Builder → Builder) (b : Builder) : Builder :=
  let fp := styledFirstPart pageWidth pageHeight title content b
  let b1 := fp.1
  let startY := fp.2.1
  let contentStartY := fp.2.2
  let b2 := { b1 with y := b1.y + 5 }
  let endY := b2.y
  if jsFloor ((startY - 1 / 10) / pageHeight) ≠ jsFloor ((endY - 1 / 10) / pageHeight) then
    { styledRedraw pageWidth pageHeight title content (contentStartY - 7) b2 with y := endY }
  else
    let b3 := b2.paint (.rectOp MARGIN startY (contentWidth pageWidth) (endY - startY) true)
    { styledRedraw pageWidth pageHeight title content (contentStartY - 7) b3 with y := endY }

/-- The two footer paint operations for page `i` of `n`. -/
def footerOps (pageWidth pageHeight : ℚ) (i n : Nat) : List PaintOp :=
  [.lineOp MARGIN (pageHeight - FOOTER_HEIGHT) (pageWidth - MARGIN) (pageHeight - FOOTER_HEIGHT),
   .textOp ["Page " ++ toString i ++ " of " ++ toString n] (pageWidth / 2)
     (pageHeight - FOOTER_HEIGHT + 6) .normal FONT_SIZES_SMALL .center]

/-- One iteration of the footer loop: `setPage(i)` followed by the footer
paint calls, i.e. append the footer operations to page `i` (1-based). -/
def stampFooter (pageWidth pageHeight : ℚ) (n : Nat) (ps : List (List PaintOp)) (i : Nat) :
    List (List PaintOp) :=
  ps.set (i - 1) (ps.getD (i - 1) [] ++ footerOps pageWidth pageHeight i n)

/-- `PdfBuilder.finalizeAndAddFooters`: for `i` in `1..totalPages`, stamp
the footer onto page `i`; the result is the final page set. -/
def finalizeAndAddFooters (pageWidth pageHeight : ℚ) (b : Builder) : List (List PaintOp) :=
  let totalPages := b.allPages.length
  (List.range totalPages).foldl (fun ps k => stampFooter pageWidth pageHeight totalPages ps (k + 1)) b.allPages

-- Score post-processing (`processAnalysis` in the application module).

/-- Raw per-candidate scores from the analysis step; `none` models an
absent (`undefined`/falsy) field, which the source replaces by `0`. -/
structure RawCandidateScores where
  skill_match_score : Option ℚ
  experience_match_score : Option ℚ
  education_match_score : Option ℚ
  semantic_relevance_score : Option ℚ
deriving DecidableEq

/-- `Math.max(0, Math.min(100, x))`. -/
def clampScore (q : ℚ) : ℚ := max 0 (min 100 q)

/-- The per-candidate body of the `candidatesWithOverall` map in
`processAnalysis`: clamp the four components, then form the weighted
overall score `(semantic * 0.45) + (skill * 0.30) + (experience * 0.20)
+ (education * 0.05)`. -/
def processCandidateScores (raw : RawCandidateScores) : CandidateScores :=
  let semantic := clampScore (raw.semantic_relevance_score.getD 0)
  let skill := clampScore (raw.skill_match_score.getD 0)
  let experience := clampScore (raw.experience_match_score.getD 0)
  let education := clampScore (raw.education_match_score.getD 0)
  let overall := semantic * (45 / 100) + skill * (30 / 100) + experience * (20 / 100) + education * (5 / 100)
  { skill_match_score := skill
    experience_match_score := experience
    education_match_score := education
    semantic_relevance_score := semantic
    overall_match_score := overall }

/-- The `candidatesWithOverall` list of `processAnalysis`. -/
def candidatesWithOverall (raws : List RawCandidateScores) : List CandidateScores :=
  raws.map processCandidateScores

-- Concrete fixtures used by counterexamples and witnesses.

/-- A wrap backend that never breaks a line. -/
def splitOne : String → ℚ → List String := fun s _ => [s]

/-- A wrap backend on which every text wraps to ten lines. -/
def splitTen : String → ℚ → List String := fun s _ => List.replicate 10 s

def sampleScores : CandidateScores := ⟨50, 50, 50, 50, 50⟩

def sampleCandidate : CandidateResult := ⟨1, "A", sampleScores⟩

/-- A cursor state on page 1 at offset 100 (witness input). -/
def c1b : Builder := ⟨[], [], 1, 100, 0⟩

/-- A cursor state on page 1 at offset 250, near the bottom of an A4
page (failing input for the styled-section boundary test). -/
def c2b : Builder := ⟨[], [], 1, 250, 0⟩

/-- A content procedure that renders one body-text block wrapping to ten
lines (height 10 × 5.29167 ≈ 52.92) on an A4 page. -/
def c2content : Builder → Builder := addBodyText splitTen 210 297 (some "L") .normal

/-- A cursor state on page 1 at offset 260 (counterexample input: the
summary-table capacity check triggers a page break from here). -/
def c3b : Builder := ⟨[], [], 1, 260, 0⟩

/-- A cursor state on page 1 at offset 255 (counterexample input: a
one-row summary table fits the capacity check here but its trailing gap
ends past the footer band). -/
def c5b : Builder := ⟨[], [], 1, 255, 0⟩

/-- A cursor state on page 1 at offset 100 (witness input). -/
def w5b : Builder := ⟨[], [], 1, 100, 0⟩

/-- A content procedure that parks the cursor at offset 20 (witness
input for the styled-section bound). -/
def c5f : Builder → Builder := fun u => { u with y := 20 }

/-- A cursor state on page 1 at offset 20 (witness input). -/
def c6b : Builder := ⟨[], [], 1, 20, 0⟩

/-- A content procedure that advances the cursor by 50 and ticks the
ghost invocation counter once per call (witness input). -/
def c4f : Builder → Builder := fun u => { u with calls := u.calls + 1, y := u.y + 50 }

/-- A cursor state on page 1 at offset 20 (witness input). -/
def c4b : Builder := ⟨[], [], 1, 20, 0⟩

/-- A cursor state on page 1 at offset 40 (witness input). -/
def c9b : Builder := ⟨[], [], 1, 40, 0⟩

/-- A raw analysis with out-of-range and missing component scores
(witness input). -/
def c10raws : List RawCandidateScores := [⟨some 150, none, some (-3), some 50⟩]

/-- A two-page document state (witness input for the footer pass). -/
def c7b : Builder := ⟨[[.lineOp 1 2 3 4]], [.rectOp 0 0 5 5 true], 2, 100, 0⟩

/-- The operation sequence painted by `paintHeaderCells` (its net
effect, established by `paintHeaderCells_eq`). -/
def headerCellOps (cells : List String) (widths : List ℚ) (x yy : ℚ) : List PaintOp :=
  match cells, widths with
  | c :: cs, w :: ws =>
    .textOp [c] (x + 3) (yy + 11 / 2) .bold FONT_SIZES_BODY .left :: headerCellOps cs ws (x + w) yy
  | _, _ => []

/-- The operation sequence painted by `paintBodyCells` (its net effect,
established by `paintBodyCells_eq`). -/
def bodyCellOps (split : String → ℚ → List String) (cells : List String) (widths : List ℚ)
    (x yy : ℚ) : List PaintOp :=
  match cells, widths with
  | c :: cs, w :: ws =>
    .textOp (split c (w - 6)) (x + 3) (yy + 11 / 2) .normal FONT_SIZES_BODY .left
      :: bodyCellOps split cs ws (x + w) yy
  | _, _ => []

/-- The operation sequence painted by `paintBodyRows` started at offset
`y` (its net effect, established by `paintBodyRows_eq`). -/
def bodyRowsOps (split : String → ℚ → List String) (pageWidth : ℚ) (widths : List ℚ)
    (rows : List (List String)) (rowIndex : Nat) (y : ℚ) : List PaintOp :=
  match rows with
  | [] => []
  | row :: rest =>
    (if rowIndex % 2 ≠ 0 then [PaintOp.rectOp MARGIN y (contentWidth pageWidth) 8 true] else [])
      ++ bodyCellOps split row widths MARGIN y
      ++ bodyRowsOps split pageWidth widths rest (rowIndex + 1) (y + 8)

/-- A builder operation never decreases the page counter, and never
decreases the vertical offset unless a page break occurred during it
(i.e. offsets drop only through `addPage`, which resets to the margin). -/
def OffsetMono (R : Builder → Builder) : Prop :=
  ∀ b : Builder, b.pageNumber ≤ (R b).pageNumber
    ∧ ((R b).pageNumber = b.pageNumber → b.y ≤ (R b).y)

-- Basic effect lemmas.

theorem addPage_pageNumber (pageWidth : ℚ) (b : Builder) :
    (addPage pageWidth b).pageNumber = b.pageNumber + 1 := by
  by_cases h : b.pageNumber > 0 <;> simp [addPage, addPageHeader, Builder.paint, h]

theorem addPage_y (pageWidth : ℚ) (b : Builder) : (addPage pageWidth b).y = MARGIN := by
  by_cases h : b.pageNumber > 0 <;> simp [addPage, addPageHeader, Builder.paint, h]

theorem addPage_calls (pageWidth : ℚ) (b : Builder) : (addPage pageWidth b).calls = b.calls := by
  by_cases h : b.pageNumber > 0 <;> simp [addPage, addPageHeader, Builder.paint, h]

theorem checkAndAddPage_calls (pageWidth pageHeight h : ℚ) (b : Builder) :
    (checkAndAddPage pageWidth pageHeight h b).calls = b.calls := by
  unfold checkAndAddPage
  split
  · exact addPage_calls pageWidth b
  · rfl

/-- C1: `checkAndAddPage(h)` with `h` at most the remaining space
(`pageHeight − margin − footerBandHeight − currentOffset`) leaves the
builder (in particular page index and vertical offset) unchanged; with
`h` exceeding the remaining space it increments the page index exactly
once and resets the vertical offset to the margin. -/
theorem C1_ensureSpace (pageWidth pageHeight requiredHeight : ℚ) (b : Builder) :
    (requiredHeight ≤ pageHeight - MARGIN - FOOTER_HEIGHT - b.y →
      checkAndAddPage pageWidth pageHeight requiredHeight b = b)
    ∧ (pageHeight - MARGIN - FOOTER_HEIGHT - b.y < requiredHeight →
      (checkAndAddPage pageWidth pageHeight requiredHeight b).pageNumber = b.pageNumber + 1 ∧
      (checkAndAddPage pageWidth pageHeight requiredHeight b).y = MARGIN) := by
  constructor
  · intro hle
    have hc : ¬ (b.y + requiredHeight > pageHeight - MARGIN - FOOTER_HEIGHT) := by linarith
    simp [checkAndAddPage, hc]
  · intro hgt
    have hc : b.y + requiredHeight > pageHeight - MARGIN - FOOTER_HEIGHT := by linarith
    simp only [checkAndAddPage, if_pos hc]
    exact ⟨addPage_pageNumber pageWidth b, addPage_y pageWidth b⟩

/-- Witness for C1 on an A4 page at offset 100: a height of 50 fits, a
height of 200 does not. -/
theorem C1_ensureSpace_witness :
    checkAndAddPage 210 297 50 c1b = c1b
    ∧ (checkAndAddPage 210 297 200 c1b).pageNumber = c1b.pageNumber + 1
    ∧ (checkAndAddPage 210 297 200 c1b).y = MARGIN :=
  ⟨(C1_ensureSpace 210 297 50 c1b).1 (by with_unfolding_all decide),
   (C1_ensureSpace 210 297 200 c1b).2 (by with_unfolding_all decide)⟩

/-- C8: each component score is clamped to `[0,100]` (missing components
defaulting to 0) and the overall score is exactly
`0.45·semantic + 0.30·skill + 0.20·experience + 0.05·education`; on the
inputs (semantic 90, skill 80, experience 70, education 60) the overall
score is 81.5. -/
theorem C8_overall_weighted_sum (raw : RawCandidateScores) :
    (processCandidateScores raw).semantic_relevance_score = clampScore (raw.semantic_relevance_score.getD 0)
    ∧ (processCandidateScores raw).skill_match_score = clampScore (raw.skill_match_score.getD 0)
    ∧ (processCandidateScores raw).experience_match_score = clampScore (raw.experience_match_score.getD 0)
    ∧ (processCandidateScores raw).education_match_score = clampScore (raw.education_match_score.getD 0)
    ∧ (processCandidateScores raw).overall_match_score =
        clampScore (raw.semantic_relevance_score.getD 0) * (45 / 100)
        + clampScore (raw.skill_match_score.getD 0) * (30 / 100)
        + clampScore (raw.experience_match_score.getD 0) * (20 / 100)
        + clampScore (raw.education_match_score.getD 0) * (5 / 100)
    ∧ (processCandidateScores ⟨some 80, some 70, some 60, some 90⟩).overall_match_score = 163 / 2 :=
  ⟨rfl, rfl, rfl, rfl, rfl, by with_unfolding_all rfl⟩

/-- C10: every overall score computed by the `candidatesWithOverall`
step of `processAnalysis` lies in `[0,100]`, because each component is
clamped to `[0,100]` and the four weights sum to 1. -/
theorem C10_overall_in_unit_range (raws : List RawCandidateScores) (c : CandidateScores)
    (hc : c ∈ candidatesWithOverall raws) :
    0 ≤ c.overall_match_score ∧ c.overall_match_score ≤ 100 := by
  obtain ⟨raw, _, rfl⟩ := List.mem_map.1 hc
  have hb : ∀ q : ℚ, 0 ≤ clampScore q ∧ clampScore q ≤ 100 := fun q =>
    ⟨le_max_left 0 _, max_le (by norm_num) (min_le_left _ _)⟩
  obtain ⟨h1, h2⟩ := hb (raw.semantic_relevance_score.getD 0)
  obtain ⟨h3, h4⟩ := hb (raw.skill_match_score.getD 0)
  obtain ⟨h5, h6⟩ := hb (raw.experience_match_score.getD 0)
  obtain ⟨h7, h8⟩ := hb (raw.education_match_score.getD 0)
  have he : (processCandidateScores raw).overall_match_score =
      clampScore (raw.semantic_relevance_score.getD 0) * (45 / 100)
      + clampScore (raw.skill_match_score.getD 0) * (30 / 100)
      + clampScore (raw.experience_match_score.getD 0) * (20 / 100)
      + clampScore (raw.education_match_score.getD 0) * (5 / 100) := rfl
  rw [he]
  constructor <;> linarith

/-- Witness for C10 on a raw analysis with an out-of-range, a missing
and a negative component. -/
theorem C10_witness :
    0 ≤ (processCandidateScores ⟨some 150, none, some (-3), some 50⟩).overall_match_score
    ∧ (processCandidateScores ⟨some 150, none, some (-3), some 50⟩).overall_match_score ≤ 100 :=
  C10_overall_in_unit_range c10raws _ (by with_unfolding_all decide)

/-- C9: an absent body-text value renders nothing at all (no paint, no
cursor movement), and an empty bullet list renders exactly one italic
"None listed" body line (one text paint, cursor advanced by one body
line height 5.29167). -/
theorem C9_absent_and_empty (split : String → ℚ → List String) (pageWidth pageHeight : ℚ)
    (style : FontStyle) (b : Builder)
    (hw : split "None listed" (contentWidth pageWidth) = ["None listed"]) :
    addBodyText split pageWidth pageHeight none style b = b
    ∧ addBulletList split pageWidth pageHeight [] b
        = addBodyText split pageWidth pageHeight (some "None listed") .italic b
    ∧ addBulletList split pageWidth pageHeight [] b =
        { checkAndAddPage pageWidth pageHeight (529167 / 100000) b with
          curPage := (checkAndAddPage pageWidth pageHeight (529167 / 100000) b).curPage
            ++ [.textOp ["None listed"] MARGIN (checkAndAddPage pageWidth pageHeight (529167 / 100000) b).y .italic FONT_SIZES_BODY .left],
          y := (checkAndAddPage pageWidth pageHeight (529167 / 100000) b).y + 529167 / 100000 } := by
  have hh : textBlockHeight split "None listed" (contentWidth pageWidth) = 529167 / 100000 := by
    rw [textBlockHeight, hw]
    norm_num [FONT_SIZES_BODY, LINE_HEIGHT_MULTIPLIER]
  refine ⟨rfl, rfl, ?_⟩
  show addBodyText split pageWidth pageHeight (some "None listed") .italic b = _
  simp only [addBodyText, Builder.paint, hw, hh]

/-- Witness for C9 with a wrap backend that keeps "None listed" on one
line. -/
theorem C9_witness :
    addBodyText splitOne 210 297 none .bold c9b = c9b
    ∧ addBulletList splitOne 210 297 [] c9b
        = addBodyText splitOne 210 297 (some "None listed") .italic c9b :=
  ⟨(C9_absent_and_empty splitOne 210 297 .bold c9b rfl).1,
   (C9_absent_and_empty splitOne 210 297 .bold c9b rfl).2.1⟩

theorem calls_addSectionTitle (pageWidth pageHeight : ℚ) (t : String) (b : Builder) :
    (addSectionTitle pageWidth pageHeight t b).calls = b.calls :=
  checkAndAddPage_calls pageWidth pageHeight 10 b

theorem calls_styledRedraw (pageWidth pageHeight : ℚ) (t : String) (content : Builder → Builder)
    (fromY : ℚ) (b : Builder) (hc : ∀ u : Builder, (content u).calls = u.calls + 1) :
    (styledRedraw pageWidth pageHeight t content fromY b).calls = b.calls + 1 := by
  unfold styledRedraw
  dsimp only
  rw [hc]
  show (addSectionTitle pageWidth pageHeight t { b with y := fromY }).calls + 1 = b.calls + 1
  rw [calls_addSectionTitle]

theorem calls_styledFirstPart (pageWidth pageHeight : ℚ) (t : String) (content : Builder → Builder)
    (b : Builder) (hc : ∀ u : Builder, (content u).calls = u.calls + 1) :
    (styledFirstPart pageWidth pageHeight t content b).1.calls = b.calls + 1 := by
  unfold styledFirstPart
  dsimp only
  rw [hc]
  show (addSectionTitle pageWidth pageHeight t { checkAndAddPage pageWidth pageHeight 15 b with y := (checkAndAddPage pageWidth pageHeight 15 b).y + 5 }).calls + 1 = b.calls + 1
  rw [calls_addSectionTitle]
  show (checkAndAddPage pageWidth pageHeight 15 b).calls + 1 = b.calls + 1
  rw [checkAndAddPage_calls]

/-- C4: for every styled-section invocation the content procedure is
invoked exactly twice (witnessed by the ghost counter, which only the
content procedure increments), and in both branches the final cursor
offset equals the `endY` recorded at the end of the first (measuring)
pass, namely 5 past the offset the first content invocation reached —
regardless of how the redraw pass moved the cursor. -/
theorem C4_styled_two_invocations (pageWidth pageHeight : ℚ) (title : String)
    (content : Builder → Builder) (b : Builder)
    (hc : ∀ u : Builder, (content u).calls = u.calls + 1) :
    (addStyledSection pageWidth pageHeight title content b).y
      = (styledFirstPart pageWidth pageHeight title content b).1.y + 5
    ∧ (addStyledSection pageWidth pageHeight title content b).calls = b.calls + 2 := by
  constructor
  · unfold addStyledSection
    dsimp only
    split <;> rfl
  · unfold addStyledSection
    dsimp only
    split
    · rw [calls_styledRedraw pageWidth pageHeight title content _ _ hc]
      show (styledFirstPart pageWidth pageHeight title content b).1.calls + 1 = b.calls + 2
      rw [calls_styledFirstPart pageWidth pageHeight title content b hc]
    · rw [calls_styledRedraw pageWidth pageHeight title content _ _ hc]
      show (styledFirstPart pageWidth pageHeight title content b).1.calls + 1 = b.calls + 2
      rw [calls_styledFirstPart pageWidth pageHeight title content b hc]

/-- Witness for C4: a content procedure that ticks the ghost counter and
advances the cursor by 50, run from offset 20 on page 1 of an A4 page. -/
theorem C4_styled_two_invocations_witness :
    (addStyledSection 210 297 "T" c4f c4b).y = (styledFirstPart 210 297 "T" c4f c4b).1.y + 5
    ∧ (addStyledSection 210 297 "T" c4f c4b).calls = c4b.calls + 2 :=
  C4_styled_two_invocations 210 297 "T" c4f c4b (fun _ => rfl)

/-- C2 (refuted): the styled-section boundary test compares
`floor((startY − 0.1)/pageHeight)` with `floor((endY − 0.1)/pageHeight)`,
but the offsets are page-relative (they reset to the margin on every
page break), not monotonically accumulating. From offset 250 on page 1
of an A4 page (pageHeight 297), a content block of ten wrapped lines
(height 52.92) forces a page break during the measuring pass — the
measuring pass ends on page 2 — yet both floors are 0, so the test
reports "no boundary crossed" and the code paints the background box
(with negative height −177.08, from the stale offset 250) instead of
taking the no-box redraw branch. -/
theorem C2_boundary_test_failure :
    (styledFirstPart 210 297 "T" c2content c2b).1.pageNumber = 2
    ∧ c2b.pageNumber = 1
    ∧ jsFloor ((250 - 1 / 10) / 297) = jsFloor (((styledFirstPart 210 297 "T" c2content c2b).1.y + 5 - 1 / 10) / 297)
    ∧ ((addStyledSection 210 297 "T" c2content c2b).donePages.getD 1 []).getD 3 (.lineOp 0 0 0 0)
        = PaintOp.rectOp MARGIN 250 (contentWidth 210) (-(1770833 / 10000)) true := by
  refine ⟨by with_unfolding_all rfl, rfl, by with_unfolding_all rfl, by with_unfolding_all rfl⟩

theorem getD_set_self {α : Type} (l : List α) (i : Nat) (a d : α) (h : i < l.length) :
    (l.set i a).getD i d = a := by
  induction l generalizing i with
  | nil => simp at h
  | cons x xs ih =>
    cases i with
    | zero => rfl
    | succ n => exact ih n (Nat.lt_of_succ_lt_succ h)

theorem getD_set_ne {α : Type} (l : List α) (i j : Nat) (a d : α) (h : i ≠ j) :
    (l.set i a).getD j d = l.getD j d := by
  induction l generalizing i j with
  | nil => rfl
  | cons x xs ih =>
    cases i with
    | zero =>
      cases j with
      | zero => exact absurd rfl h
      | succ m => rfl
    | succ n =>
      cases j with
      | zero => rfl
      | succ m => exact ih n m (fun hnm => h (by rw [hnm]))

/-- Net effect of stamping footers onto pages `1..m`: each page index
below `m` gets exactly the two footer operations appended, every other
page and the page count stay untouched. -/
theorem stampFold_spec (pageWidth pageHeight : ℚ) (n : Nat) (ps : List (List PaintOp)) :
    ∀ m : Nat, m ≤ ps.length →
      ((List.range m).foldl (fun acc k => stampFooter pageWidth pageHeight n acc (k + 1)) ps).length = ps.length
      ∧ ∀ j : Nat,
          ((List.range m).foldl (fun acc k => stampFooter pageWidth pageHeight n acc (k + 1)) ps).getD j []
            = if j < m then ps.getD j [] ++ footerOps pageWidth pageHeight (j + 1) n
              else ps.getD j [] := by
  intro m
  induction m with
  | zero =>
    intro _
    refine ⟨rfl, fun j => ?_⟩
    simp
  | succ m ih =>
    intro hm
    have hm' : m ≤ ps.length := Nat.le_of_succ_le hm
    have hmlt : m < ps.length := hm
    obtain ⟨hlen, hget⟩ := ih hm'
    rw [List.range_succ, List.foldl_append]
    simp only [List.foldl_cons, List.foldl_nil]
    have hstep : stampFooter pageWidth pageHeight n
        ((List.range m).foldl (fun acc k => stampFooter pageWidth pageHeight n acc (k + 1)) ps) (m + 1)
        = ((List.range m).foldl (fun acc k => stampFooter pageWidth pageHeight n acc (k + 1)) ps).set m
            (((List.range m).foldl (fun acc k => stampFooter pageWidth pageHeight n acc (k + 1)) ps).getD m []
              ++ footerOps pageWidth pageHeight (m + 1) n) := rfl
    rw [hstep]
    constructor
    · rw [List.length_set, hlen]
    · intro j
      by_cases hj : j = m
      · subst hj
        rw [getD_set_self _ _ _ _ (by rw [hlen]; exact hmlt)]
        rw [hget]
        simp [Nat.lt_irrefl, Nat.lt_succ_self]
      · rw [getD_set_ne _ _ _ _ _ (fun he => hj he.symm)]
        rw [hget]
        by_cases hjm : j < m
        · simp [hjm, Nat.lt_succ_of_lt hjm]
        · have hns : ¬ j < m + 1 := by omega
          simp [hjm, hns]

/-- C7: the footer pass stamps exactly one footer pair per page — for a
document with `N` pages, page `j+1` (for every `j < N`) receives exactly
its previous content followed by the rule line and the centered text
"Page (j+1) of N", the page count stays `N`, and nothing else changes. -/
theorem C7_footer_stamping (pageWidth pageHeight : ℚ) (b : Builder) :
    (finalizeAndAddFooters pageWidth pageHeight b).length = b.allPages.length
    ∧ ∀ j : Nat, j < b.allPages.length →
        (finalizeAndAddFooters pageWidth pageHeight b).getD j []
          = b.allPages.getD j [] ++ footerOps pageWidth pageHeight (j + 1) b.allPages.length := by
  obtain ⟨hlen, hget⟩ :=
    stampFold_spec pageWidth pageHeight b.allPages.length b.allPages b.allPages.length le_rfl
  unfold finalizeAndAddFooters
  dsimp only
  refine ⟨hlen, fun j hj => ?_⟩
  rw [hget j]
  simp [hj]

/-- Witness for C7 on a concrete two-page document: page 2 receives
exactly its old content plus the "Page 2 of 2" footer pair. -/
theorem C7_witness :
    (finalizeAndAddFooters 210 297 c7b).getD 1 []
      = c7b.allPages.getD 1 [] ++ footerOps 210 297 2 c7b.allPages.length :=
  (C7_footer_stamping 210 297 c7b).2 1 (by with_unfolding_all decide)

theorem paintHeaderCells_spec (cells : List String) :
    ∀ (widths : List ℚ) (x yy : ℚ) (b : Builder),
      ∃ ops, paintHeaderCells b cells widths x yy = { b with curPage := b.curPage ++ ops } := by
  induction cells with
  | nil =>
    intro widths x yy b
    exact ⟨[], by simp [paintHeaderCells]⟩
  | cons c cs ih =>
    intro widths x yy b
    cases widths with
    | nil => exact ⟨[], by simp [paintHeaderCells]⟩
    | cons w ws =>
      obtain ⟨ops, hops⟩ :=
        ih ws (x + w) yy (b.paint (.textOp [c] (x + 3) (yy + 11 / 2) .bold FONT_SIZES_BODY .left))
      refine ⟨.textOp [c] (x + 3) (yy + 11 / 2) .bold FONT_SIZES_BODY .left :: ops, ?_⟩
      simp only [paintHeaderCells]
      rw [hops]
      simp [Builder.paint]

theorem paintBodyCells_spec (split : String → ℚ → List String) (cells : List String) :
    ∀ (widths : List ℚ) (x yy : ℚ) (b : Builder),
      ∃ ops, paintBodyCells split b cells widths x yy = { b with curPage := b.curPage ++ ops } := by
  induction cells with
  | nil =>
    intro widths x yy b
    exact ⟨[], by simp [paintBodyCells]⟩
  | cons c cs ih =>
    intro widths x yy b
    cases widths with
    | nil => exact ⟨[], by simp [paintBodyCells]⟩
    | cons w ws =>
      obtain ⟨ops, hops⟩ :=
        ih ws (x + w) yy (b.paint (.textOp (split c (w - 6)) (x + 3) (yy + 11 / 2) .normal FONT_SIZES_BODY .left))
      refine ⟨.textOp (split c (w - 6)) (x + 3) (yy + 11 / 2) .normal FONT_SIZES_BODY .left :: ops, ?_⟩
      simp only [paintBodyCells]
      rw [hops]
      simp [Builder.paint]

theorem paintScoreItems_spec (itemWidth : ℚ) (items : List (String × ℚ)) :
    ∀ (index : Nat) (b : Builder),
      ∃ ops, paintScoreItems itemWidth items index b = { b with curPage := b.curPage ++ ops } := by
  induction items with
  | nil =>
    intro index b
    exact ⟨[], by simp [paintScoreItems]⟩
  | cons item rest ih =>
    intro index b
    obtain ⟨ops, hops⟩ := ih (index + 1)
      ((b.paint (.textOp [toString (jsRound item.2) ++ "%"] (MARGIN + itemWidth * (index : ℚ) + itemWidth / 2) b.y .bold FONT_SIZES_H3 .center)).paint
        (.textOp [item.1] (MARGIN + itemWidth * (index : ℚ) + itemWidth / 2) (b.y + 5) .normal FONT_SIZES_SMALL .center))
    refine ⟨.textOp [toString (jsRound item.2) ++ "%"] (MARGIN + itemWidth * (index : ℚ) + itemWidth / 2) b.y .bold FONT_SIZES_H3 .center
      :: .textOp [item.1] (MARGIN + itemWidth * (index : ℚ) + itemWidth / 2) (b.y + 5) .normal FONT_SIZES_SMALL .center
      :: ops, ?_⟩
    show paintScoreItems itemWidth rest (index + 1)
        ((b.paint (.textOp [toString (jsRound item.2) ++ "%"] (MARGIN + itemWidth * (index : ℚ) + itemWidth / 2) b.y .bold FONT_SIZES_H3 .center)).paint
          (.textOp [item.1] (MARGIN + itemWidth * (index : ℚ) + itemWidth / 2) (b.y + 5) .normal FONT_SIZES_SMALL .center)) = _
    rw [hops]
    simp [Builder.paint]

theorem paintBodyRows_spec (split : String → ℚ → List String) (pageWidth : ℚ) (widths : List ℚ)
    (rows : List (List String)) :
    ∀ (rowIndex : Nat) (b : Builder),
      ∃ ops, paintBodyRows split pageWidth widths rows rowIndex b
        = { b with curPage := b.curPage ++ ops, y := b.y + 8 * (rows.length : ℚ) } := by
  induction rows with
  | nil =>
    intro rowIndex b
    exact ⟨[], by simp [paintBodyRows]⟩
  | cons row rest ih =>
    intro rowIndex b
    by_cases hz : rowIndex % 2 ≠ 0
    · simp only [paintBodyRows, if_pos hz]
      obtain ⟨cops, hcop⟩ := paintBodyCells_spec split row widths MARGIN
        (b.paint (.rectOp MARGIN b.y (contentWidth pageWidth) 8 true)).y
        (b.paint (.rectOp MARGIN b.y (contentWidth pageWidth) 8 true))
      rw [hcop]
      obtain ⟨rops, hrop⟩ := ih (rowIndex + 1)
        { (b.paint (.rectOp MARGIN b.y (contentWidth pageWidth) 8 true)) with
          curPage := (b.paint (.rectOp MARGIN b.y (contentWidth pageWidth) 8 true)).curPage ++ cops,
          y := (b.paint (.rectOp MARGIN b.y (contentWidth pageWidth) 8 true)).y + 8 }
      rw [hrop]
      refine ⟨.rectOp MARGIN b.y (contentWidth pageWidth) 8 true :: (cops ++ rops), ?_⟩
      simp [Builder.paint, List.append_assoc]
      ring
    · simp only [paintBodyRows, if_neg hz]
      obtain ⟨cops, hcop⟩ := paintBodyCells_spec split row widths MARGIN b.y b
      rw [hcop]
      obtain ⟨rops, hrop⟩ := ih (rowIndex + 1)
        { b with curPage := b.curPage ++ cops, y := b.y + 8 }
      rw [hrop]
      refine ⟨cops ++ rops, ?_⟩
      simp [Builder.paint, List.append_assoc]
      ring

theorem paintHeaderCells_eq (cells : List String) :
    ∀ (widths : List ℚ) (x yy : ℚ) (b : Builder),
      paintHeaderCells b cells widths x yy
        = { b with curPage := b.curPage ++ headerCellOps cells widths x yy } := by
  induction cells with
  | nil =>
    intro widths x yy b
    cases widths <;> simp [paintHeaderCells, headerCellOps]
  | cons c cs ih =>
    intro widths x yy b
    cases widths with
    | nil => simp [paintHeaderCells, headerCellOps]
    | cons w ws =>
      simp only [paintHeaderCells, headerCellOps]
      rw [ih]
      simp [Builder.paint]

theorem paintBodyCells_eq (split : String → ℚ → List String) (cells : List String) :
    ∀ (widths : List ℚ) (x yy : ℚ) (b : Builder),
      paintBodyCells split b cells widths x yy
        = { b with curPage := b.curPage ++ bodyCellOps split cells widths x yy } := by
  induction cells with
  | nil =>
    intro widths x yy b
    cases widths <;> simp [paintBodyCells, bodyCellOps]
  | cons c cs ih =>
    intro widths x yy b
    cases widths with
    | nil => simp [paintBodyCells, bodyCellOps]
    | cons w ws =>
      simp only [paintBodyCells, bodyCellOps]
      rw [ih]
      simp [Builder.paint]

theorem paintBodyRows_eq (split : String → ℚ → List String) (pageWidth : ℚ) (widths : List ℚ)
    (rows : List (List String)) :
    ∀ (rowIndex : Nat) (b : Builder),
      paintBodyRows split pageWidth widths rows rowIndex b
        = { b with
            curPage := b.curPage ++ bodyRowsOps split pageWidth widths rows rowIndex b.y,
            y := b.y + 8 * (rows.length : ℚ) } := by
  induction rows with
  | nil =>
    intro rowIndex b
    simp [paintBodyRows, bodyRowsOps]
  | cons row rest ih =>
    intro rowIndex b
    by_cases hz : rowIndex % 2 ≠ 0
    · simp only [paintBodyRows, bodyRowsOps, if_pos hz]
      rw [paintBodyCells_eq]
      dsimp only [Builder.paint]
      rw [ih]
      simp [Builder.paint, List.append_assoc]
      ring
    · simp only [paintBodyRows, bodyRowsOps, if_neg hz]
      rw [paintBodyCells_eq]
      dsimp only [Builder.paint]
      rw [ih]
      simp [Builder.paint, List.append_assoc]
      ring

/-- Net effect of `addSummaryTable`: the capacity check receives the
full table height `(rowCount + 1) × 8` before any painting; all painting
lands on the page the check selected (only `curPage` and `y` change
afterwards); the painted trailer is the outer border rectangle drawn
from the offset recorded before the check (`b.y`) to the table's end
offset, followed by the four column separator lines at the x-positions
`margin + 15`, `margin + 15 + 85`, `margin + 15 + 85 + 25` and
`margin + 15 + 85 + 25 + 25` (the cumulative prefix sums of the column
widths); the cursor ends at the table end offset plus the trailing gap 5. -/
theorem summaryTable_spec (split : String → ℚ → List String) (pageWidth pageHeight : ℚ)
    (cs : List CandidateResult) (b : Builder) :
    addSummaryTable split pageWidth pageHeight cs b =
      (let c := checkAndAddPage pageWidth pageHeight (((cs.length : ℚ) + 1) * 8) b
       let e := c.y + ((cs.length : ℚ) + 1) * 8
       { c with
         curPage := c.curPage ++
           (PaintOp.rectOp MARGIN c.y (contentWidth pageWidth) 8 true
             :: (headerCellOps ["Rank", "Name", "Overall", "Skill", "Experience"] [15, 85, 25, 25, 25] MARGIN c.y
                 ++ bodyRowsOps split pageWidth [15, 85, 25, 25, 25] (cs.map summaryRow) 0 (c.y + 8))) ++
           [PaintOp.rectOp MARGIN b.y (contentWidth pageWidth) (e - b.y) false,
            PaintOp.lineOp (MARGIN + 15) b.y (MARGIN + 15) e,
            PaintOp.lineOp (MARGIN + 15 + 85) b.y (MARGIN + 15 + 85) e,
            PaintOp.lineOp (MARGIN + 15 + 85 + 25) b.y (MARGIN + 15 + 85 + 25) e,
            PaintOp.lineOp (MARGIN + 15 + 85 + 25 + 25) b.y (MARGIN + 15 + 85 + 25 + 25) e],
         y := e + 5 }) := by
  unfold addSummaryTable
  dsimp only
  rw [List.length_map]
  generalize checkAndAddPage pageWidth pageHeight (((cs.length : ℚ) + 1) * 8) b = c
  rw [paintHeaderCells_eq]
  dsimp only [Builder.paint]
  rw [paintBodyRows_eq]
  rw [List.length_map]
  have hdl : ([15, 85, 25, 25, 25] : List ℚ).dropLast = [15, 85, 25, 25] := rfl
  rw [hdl]
  simp only [paintVertLines, Builder.paint]
  simp only [Builder.mk.injEq, List.append_assoc, List.cons_append, List.nil_append]
  ring_nf
  simp

/-- C3 (amended): the table's full height `(rowCount + 1) × rowHeight`
is passed to the capacity check before any cell is painted and the
painting never changes the page (only the current page's log and the
cursor move after the single check), the vertical separator lines sit at
margin plus the cumulative prefix sums of the column widths — but the
outer border rectangle is drawn from the offset recorded *before* the
capacity check (`b.y`) to the table's end offset, which coincides with
the span from the table's start offset to its end offset only when the
check did not trigger a page break. -/
theorem C3_summary_table_amended (split : String → ℚ → List String) (pageWidth pageHeight : ℚ)
    (cs : List CandidateResult) (b : Builder) :
    (addSummaryTable split pageWidth pageHeight cs b).pageNumber
        = (checkAndAddPage pageWidth pageHeight (((cs.length : ℚ) + 1) * 8) b).pageNumber
    ∧ (addSummaryTable split pageWidth pageHeight cs b).donePages
        = (checkAndAddPage pageWidth pageHeight (((cs.length : ℚ) + 1) * 8) b).donePages
    ∧ (addSummaryTable split pageWidth pageHeight cs b).y
        = (checkAndAddPage pageWidth pageHeight (((cs.length : ℚ) + 1) * 8) b).y
          + ((cs.length : ℚ) + 1) * 8 + 5
    ∧ ∃ ops,
        (addSummaryTable split pageWidth pageHeight cs b).curPage
          = (checkAndAddPage pageWidth pageHeight (((cs.length : ℚ) + 1) * 8) b).curPage ++ ops ++
            [PaintOp.rectOp MARGIN b.y (contentWidth pageWidth)
               ((checkAndAddPage pageWidth pageHeight (((cs.length : ℚ) + 1) * 8) b).y
                 + ((cs.length : ℚ) + 1) * 8 - b.y) false,
             PaintOp.lineOp (MARGIN + 15) b.y (MARGIN + 15)
               ((checkAndAddPage pageWidth pageHeight (((cs.length : ℚ) + 1) * 8) b).y + ((cs.length : ℚ) + 1) * 8),
             PaintOp.lineOp (MARGIN + 15 + 85) b.y (MARGIN + 15 + 85)
               ((checkAndAddPage pageWidth pageHeight (((cs.length : ℚ) + 1) * 8) b).y + ((cs.length : ℚ) + 1) * 8),
             PaintOp.lineOp (MARGIN + 15 + 85 + 25) b.y (MARGIN + 15 + 85 + 25)
               ((checkAndAddPage pageWidth pageHeight (((cs.length : ℚ) + 1) * 8) b).y + ((cs.length : ℚ) + 1) * 8),
             PaintOp.lineOp (MARGIN + 15 + 85 + 25 + 25) b.y (MARGIN + 15 + 85 + 25 + 25)
               ((checkAndAddPage pageWidth pageHeight (((cs.length : ℚ) + 1) * 8) b).y + ((cs.length : ℚ) + 1) * 8)] := by
  rw [summaryTable_spec]
  dsimp only
  exact ⟨rfl, rfl, rfl,
    ⟨PaintOp.rectOp MARGIN (checkAndAddPage pageWidth pageHeight (((cs.length : ℚ) + 1) * 8) b).y (contentWidth pageWidth) 8 true
      :: (headerCellOps ["Rank", "Name", "Overall", "Skill", "Experience"] [15, 85, 25, 25, 25] MARGIN
            (checkAndAddPage pageWidth pageHeight (((cs.length : ℚ) + 1) * 8) b).y
          ++ bodyRowsOps split pageWidth [15, 85, 25, 25, 25] (cs.map summaryRow) 0
            ((checkAndAddPage pageWidth pageHeight (((cs.length : ℚ) + 1) * 8) b).y + 8)), rfl⟩⟩

/-- C3 counterexample: from offset 260 on page 1 of an A4 page, the
one-row table's capacity check page-breaks, so the table is painted
from offset 15 on page 2 (the header band rectangle, the table's actual
start) — yet the outer border rectangle is drawn at the stale offset 260
with negative height −229, not from the table's start offset 15 to its
end offset 31. -/
theorem C3_summary_table_counterexample :
    ((addSummaryTable splitOne 210 297 [sampleCandidate] c3b).curPage.getD 13 (.lineOp 0 0 0 0)
      = PaintOp.rectOp MARGIN 260 (contentWidth 210) (-229) false)
    ∧ ((addSummaryTable splitOne 210 297 [sampleCandidate] c3b).curPage.getD 2 (.lineOp 0 0 0 0)
      = PaintOp.rectOp MARGIN 15 (contentWidth 210) 8 true)
    ∧ ¬ ((260 : ℚ) = 15) :=
  ⟨by with_unfolding_all rfl, by with_unfolding_all rfl, by norm_num⟩

-- Cursor effect of each renderer (definitional).

theorem addHeader_y (pageWidth pageHeight : ℚ) (t : String) (b : Builder) :
    (addHeader pageWidth pageHeight t b).y
      = (checkAndAddPage pageWidth pageHeight 20 b).y + FONT_SIZES_H1 * (7 / 10) := rfl

theorem addSubheader_y (pageWidth pageHeight : ℚ) (t : String) (b : Builder) :
    (addSubheader pageWidth pageHeight t b).y
      = (checkAndAddPage pageWidth pageHeight 15 b).y + FONT_SIZES_H2 * (9 / 10) := rfl

theorem addSectionTitle_y (pageWidth pageHeight : ℚ) (t : String) (b : Builder) :
    (addSectionTitle pageWidth pageHeight t b).y
      = (checkAndAddPage pageWidth pageHeight 10 b).y + FONT_SIZES_H3 * (7 / 10) := rfl

theorem addSeparator_y (pageWidth pageHeight : ℚ) (b : Builder) :
    (addSeparator pageWidth pageHeight b).y
      = (checkAndAddPage pageWidth pageHeight 10 b).y + 5 + 5 := rfl

theorem addScoreGrid_y (pageWidth pageHeight : ℚ) (sc : CandidateScores) (b : Builder) :
    (addScoreGrid pageWidth pageHeight sc b).y
      = (checkAndAddPage pageWidth pageHeight 20 b).y + 15 := rfl

theorem addBodyText_some_y (split : String → ℚ → List String) (pageWidth pageHeight : ℚ)
    (s : String) (style : FontStyle) (b : Builder) :
    (addBodyText split pageWidth pageHeight (some s) style b).y
      = (checkAndAddPage pageWidth pageHeight (textBlockHeight split s (contentWidth pageWidth)) b).y
        + textBlockHeight split s (contentWidth pageWidth) := rfl

theorem textBlockHeight_nonneg (split : String → ℚ → List String) (s : String) (w : ℚ) :
    0 ≤ textBlockHeight split s w := by
  unfold textBlockHeight
  have h1 : (0:ℚ) ≤ ((split s w).length : ℚ) := Nat.cast_nonneg _
  have h2 : (0:ℚ) ≤ FONT_SIZES_BODY * (352778 / 1000000) := by norm_num [FONT_SIZES_BODY]
  have h3 : (0:ℚ) ≤ LINE_HEIGHT_MULTIPLIER := by norm_num [LINE_HEIGHT_MULTIPLIER]
  exact mul_nonneg (mul_nonneg h1 h2) h3

/-- Either the capacity check fits (state unchanged and the checked
height fits below the footer band) or it page-breaks (offset at the
margin, page counter incremented). -/
theorem checkAndAddPage_cases (pageWidth pageHeight h : ℚ) (b : Builder) :
    (checkAndAddPage pageWidth pageHeight h b = b ∧ b.y + h ≤ pageHeight - MARGIN - FOOTER_HEIGHT)
    ∨ ((checkAndAddPage pageWidth pageHeight h b).y = MARGIN
        ∧ (checkAndAddPage pageWidth pageHeight h b).pageNumber = b.pageNumber + 1) := by
  unfold checkAndAddPage
  split
  · right
    exact ⟨addPage_y pageWidth b, addPage_pageNumber pageWidth b⟩
  · left
    refine ⟨rfl, ?_⟩
    linarith [le_of_not_lt (by assumption : ¬ b.y + h > pageHeight - MARGIN - FOOTER_HEIGHT)]

theorem checkAndAddPage_y_lower (pageWidth pageHeight h : ℚ) (b : Builder) (hy : MARGIN ≤ b.y) :
    MARGIN ≤ (checkAndAddPage pageWidth pageHeight h b).y := by
  rcases checkAndAddPage_cases pageWidth pageHeight h b with ⟨heq, _⟩ | ⟨hm, _⟩
  · rw [heq]; exact hy
  · rw [hm]

/-- Bound for the "check then advance by `v`" pattern common to the
simple renderers: if `v` is covered by the checked height `h` and a
fresh page can hold `v`, the cursor lands in the legal band. -/
theorem simpleBound (pageWidth pageHeight h v : ℚ) (b : Builder) (hy : MARGIN ≤ b.y)
    (h0 : 0 ≤ v) (hvh : v ≤ h)
    (hbr : MARGIN + v ≤ pageHeight - MARGIN - FOOTER_HEIGHT) :
    MARGIN ≤ (checkAndAddPage pageWidth pageHeight h b).y + v
    ∧ (checkAndAddPage pageWidth pageHeight h b).y + v ≤ pageHeight - MARGIN - FOOTER_HEIGHT := by
  rcases checkAndAddPage_cases pageWidth pageHeight h b with ⟨heq, hle⟩ | ⟨hm, _⟩
  · rw [heq]
    constructor <;> linarith
  · rw [hm]
    constructor <;> linarith

theorem addBodyText_bound (split : String → ℚ → List String) (pageWidth pageHeight : ℚ)
    (s : String) (style : FontStyle) (b : Builder) (hy : MARGIN ≤ b.y)
    (hh : textBlockHeight split s (contentWidth pageWidth) ≤ pageHeight - 2 * MARGIN - FOOTER_HEIGHT) :
    MARGIN ≤ (addBodyText split pageWidth pageHeight (some s) style b).y
    ∧ (addBodyText split pageWidth pageHeight (some s) style b).y
        ≤ pageHeight - MARGIN - FOOTER_HEIGHT := by
  rw [addBodyText_some_y]
  have h0 := textBlockHeight_nonneg split s (contentWidth pageWidth)
  exact simpleBound pageWidth pageHeight _ _ b hy h0 le_rfl (by linarith)

theorem bulletItems_bound (split : String → ℚ → List String) (pageWidth pageHeight : ℚ)
    (items : List String) :
    ∀ b : Builder, items ≠ [] → MARGIN ≤ b.y →
      (∀ it ∈ items, textBlockHeight split it (contentWidth pageWidth - 5)
        ≤ pageHeight - 2 * MARGIN - FOOTER_HEIGHT) →
      MARGIN ≤ (bulletItems split pageWidth pageHeight items b).y
      ∧ (bulletItems split pageWidth pageHeight items b).y ≤ pageHeight - MARGIN - FOOTER_HEIGHT := by
  induction items with
  | nil => intro b hne _ _; exact absurd rfl hne
  | cons item rest ih =>
    intro b _ hy hall
    have hth : textBlockHeight split item (contentWidth pageWidth - 5)
        ≤ pageHeight - 2 * MARGIN - FOOTER_HEIGHT := hall item (List.mem_cons_self item rest)
    have h0 := textBlockHeight_nonneg split item (contentWidth pageWidth - 5)
    simp only [bulletItems]
    dsimp only [Builder.paint]
    rcases checkAndAddPage_cases pageWidth pageHeight
        (textBlockHeight split item (contentWidth pageWidth - 5)) b with ⟨heq, hle⟩ | ⟨hm, _⟩
    · cases rest with
      | nil =>
        simp only [bulletItems]
        rw [heq]
        constructor <;> dsimp only <;> linarith
      | cons r rs =>
        refine ih _ (by simp) ?_ ?_
        · rw [heq]
          dsimp only
          linarith
        · intro it hit
          exact hall it (List.mem_cons_of_mem item hit)
    · cases rest with
      | nil =>
        simp only [bulletItems]
        rw [hm]
        constructor <;> dsimp only <;> linarith
      | cons r rs =>
        refine ih _ (by simp) ?_ ?_
        · rw [hm]
          dsimp only
          linarith
        · intro it hit
          exact hall it (List.mem_cons_of_mem item hit)

theorem addSummaryTable_y (split : String → ℚ → List String) (pageWidth pageHeight : ℚ)
    (cs : List CandidateResult) (b : Builder) :
    (addSummaryTable split pageWidth pageHeight cs b).y
      = (checkAndAddPage pageWidth pageHeight (((cs.length : ℚ) + 1) * 8) b).y
        + ((cs.length : ℚ) + 1) * 8 + 5 := by
  rw [summaryTable_spec]

theorem addSummaryTable_bound (split : String → ℚ → List String) (pageWidth pageHeight : ℚ)
    (cs : List CandidateResult) (b : Builder) (hy : MARGIN ≤ b.y)
    (ht : ((cs.length : ℚ) + 1) * 8 ≤ pageHeight - 2 * MARGIN - FOOTER_HEIGHT) :
    MARGIN ≤ (addSummaryTable split pageWidth pageHeight cs b).y
    ∧ (addSummaryTable split pageWidth pageHeight cs b).y
        ≤ pageHeight - MARGIN - FOOTER_HEIGHT + 5 := by
  rw [addSummaryTable_y]
  have h8 : (0:ℚ) ≤ ((cs.length : ℚ) + 1) * 8 := by positivity
  rcases checkAndAddPage_cases pageWidth pageHeight (((cs.length : ℚ) + 1) * 8) b with
    ⟨heq, hle⟩ | ⟨hm, _⟩
  · rw [heq]
    constructor <;> linarith
  · rw [hm]
    constructor <;> linarith

/-- In both branches, `addStyledSection` forces the final offset to the
`endY` recorded at the end of the measuring pass. -/
theorem styled_y (pageWidth pageHeight : ℚ) (t : String) (f : Builder → Builder) (b : Builder) :
    (addStyledSection pageWidth pageHeight t f b).y
      = (styledFirstPart pageWidth pageHeight t f b).1.y + 5 := by
  unfold addStyledSection
  dsimp only
  split <;> rfl

theorem styledFirstPart_fst (pageWidth pageHeight : ℚ) (t : String) (f : Builder → Builder)
    (b : Builder) :
    (styledFirstPart pageWidth pageHeight t f b).1
      = f { addSectionTitle pageWidth pageHeight t
              { checkAndAddPage pageWidth pageHeight 15 b with
                y := (checkAndAddPage pageWidth pageHeight 15 b).y + 5 } with
            y := (addSectionTitle pageWidth pageHeight t
              { checkAndAddPage pageWidth pageHeight 15 b with
                y := (checkAndAddPage pageWidth pageHeight 15 b).y + 5 }).y + 2 } := rfl

theorem addStyledSection_bound (pageWidth pageHeight : ℚ) (t : String) (f : Builder → Builder)
    (b : Builder) (hy : MARGIN ≤ b.y)
    (hf : ∀ u : Builder, MARGIN ≤ u.y →
      MARGIN ≤ (f u).y ∧ (f u).y ≤ pageHeight - MARGIN - FOOTER_HEIGHT) :
    MARGIN ≤ (addStyledSection pageWidth pageHeight t f b).y
    ∧ (addStyledSection pageWidth pageHeight t f b).y
        ≤ pageHeight - MARGIN - FOOTER_HEIGHT + 5 := by
  rw [styled_y, styledFirstPart_fst]
  set u1 := checkAndAddPage pageWidth pageHeight 15 b with hu1
  set u2 := addSectionTitle pageWidth pageHeight t { u1 with y := u1.y + 5 } with hu2
  have l1 : MARGIN ≤ u1.y := by
    rw [hu1]
    exact checkAndAddPage_y_lower pageWidth pageHeight 15 b hy
  have l2 : MARGIN ≤ u2.y := by
    rw [hu2, addSectionTitle_y]
    have l15 := checkAndAddPage_y_lower pageWidth pageHeight 10
      { u1 with y := u1.y + 5 } (by dsimp only; linarith)
    have hc3 : FONT_SIZES_H3 * (7 / 10) = 42 / 5 := by norm_num [FONT_SIZES_H3]
    rw [hc3]
    linarith
  have hm : MARGIN ≤ ({ u2 with y := u2.y + 2 } : Builder).y := by
    dsimp only
    linarith
  obtain ⟨ha, hb⟩ := hf _ hm
  constructor <;> linarith

/-- C5 counterexample: from offset 255 on page 1 of an A4 page, a
one-row summary table passes its capacity check (255 + 16 ≤ 272) without
a page break, yet the renderer returns with the cursor at 276 — outside
the claimed band [margin, pageHeight − margin − footerBand] = [15, 272]
— because the trailing gap of 5 is not part of the checked height. -/
theorem C5_offset_counterexample :
    (addSummaryTable splitOne 210 297 [sampleCandidate] c5b).pageNumber = c5b.pageNumber
    ∧ (addSummaryTable splitOne 210 297 [sampleCandidate] c5b).y = 276
    ∧ ¬ ((addSummaryTable splitOne 210 297 [sampleCandidate] c5b).y
          ≤ 297 - MARGIN - FOOTER_HEIGHT) :=
  ⟨by with_unfolding_all rfl, by with_unfolding_all rfl, by with_unfolding_all decide⟩

/-- C5 (amended): immediately after a heading, subheading, section
title, separator or score grid returns, the offset lies in
[margin, pageHeight − margin − footerBand]; body text (and each bullet
item, and the empty-list placeholder) keeps the offset in that band
provided the wrapped block's height is at most the usable content height
`pageHeight − 2·margin − footerBand`; the summary table (when its height
fits the usable area) and the styled section (when its content keeps the
offset in the band) append a trailing gap of 5 after their checked
region and guarantee only [margin, pageHeight − margin − footerBand + 5]. -/
theorem C5_renderer_offset_amended (split : String → ℚ → List String)
    (pageWidth pageHeight : ℚ) (t s : String) (items : List String)
    (cs : List CandidateResult) (sc : CandidateScores) (f : Builder → Builder)
    (style : FontStyle) (b : Builder) (hph : 60 ≤ pageHeight) (hy : MARGIN ≤ b.y) :
    (MARGIN ≤ (addHeader pageWidth pageHeight t b).y
      ∧ (addHeader pageWidth pageHeight t b).y ≤ pageHeight - MARGIN - FOOTER_HEIGHT)
    ∧ (MARGIN ≤ (addSubheader pageWidth pageHeight t b).y
      ∧ (addSubheader pageWidth pageHeight t b).y ≤ pageHeight - MARGIN - FOOTER_HEIGHT)
    ∧ (MARGIN ≤ (addSectionTitle pageWidth pageHeight t b).y
      ∧ (addSectionTitle pageWidth pageHeight t b).y ≤ pageHeight - MARGIN - FOOTER_HEIGHT)
    ∧ (MARGIN ≤ (addSeparator pageWidth pageHeight b).y
      ∧ (addSeparator pageWidth pageHeight b).y ≤ pageHeight - MARGIN - FOOTER_HEIGHT)
    ∧ (MARGIN ≤ (addScoreGrid pageWidth pageHeight sc b).y
      ∧ (addScoreGrid pageWidth pageHeight sc b).y ≤ pageHeight - MARGIN - FOOTER_HEIGHT)
    ∧ (textBlockHeight split s (contentWidth pageWidth)
          ≤ pageHeight - 2 * MARGIN - FOOTER_HEIGHT →
        MARGIN ≤ (addBodyText split pageWidth pageHeight (some s) style b).y
        ∧ (addBodyText split pageWidth pageHeight (some s) style b).y
            ≤ pageHeight - MARGIN - FOOTER_HEIGHT)
    ∧ ((∀ it ∈ items, textBlockHeight split it (contentWidth pageWidth - 5)
          ≤ pageHeight - 2 * MARGIN - FOOTER_HEIGHT) →
        textBlockHeight split "None listed" (contentWidth pageWidth)
          ≤ pageHeight - 2 * MARGIN - FOOTER_HEIGHT →
        MARGIN ≤ (addBulletList split pageWidth pageHeight items b).y
        ∧ (addBulletList split pageWidth pageHeight items b).y
            ≤ pageHeight - MARGIN - FOOTER_HEIGHT)
    ∧ (((cs.length : ℚ) + 1) * 8 ≤ pageHeight - 2 * MARGIN - FOOTER_HEIGHT →
        MARGIN ≤ (addSummaryTable split pageWidth pageHeight cs b).y
        ∧ (addSummaryTable split pageWidth pageHeight cs b).y
            ≤ pageHeight - MARGIN - FOOTER_HEIGHT + 5)
    ∧ ((∀ u : Builder, MARGIN ≤ u.y →
          MARGIN ≤ (f u).y ∧ (f u).y ≤ pageHeight - MARGIN - FOOTER_HEIGHT) →
        MARGIN ≤ (addStyledSection pageWidth pageHeight t f b).y
        ∧ (addStyledSection pageWidth pageHeight t f b).y
            ≤ pageHeight - MARGIN - FOOTER_HEIGHT + 5) := by
  have hM : MARGIN = 15 := rfl
  have hF : FOOTER_HEIGHT = 10 := rfl
  have h1 : FONT_SIZES_H1 * (7 / 10) = 14 := by norm_num [FONT_SIZES_H1]
  have h2 : FONT_SIZES_H2 * (9 / 10) = 72 / 5 := by norm_num [FONT_SIZES_H2]
  have h3 : FONT_SIZES_H3 * (7 / 10) = 42 / 5 := by norm_num [FONT_SIZES_H3]
  refine ⟨?_, ?_, ?_, ?_, ?_, ?_, ?_, ?_, ?_⟩
  · rw [addHeader_y, h1]
    exact simpleBound pageWidth pageHeight 20 14 b hy (by norm_num) (by norm_num)
      (by rw [hM, hF]; linarith)
  · rw [addSubheader_y, h2]
    exact simpleBound pageWidth pageHeight 15 (72 / 5) b hy (by norm_num) (by norm_num)
      (by rw [hM, hF]; linarith)
  · rw [addSectionTitle_y, h3]
    exact simpleBound pageWidth pageHeight 10 (42 / 5) b hy (by norm_num) (by norm_num)
      (by rw [hM, hF]; linarith)
  · rw [addSeparator_y]
    have hsep := simpleBound pageWidth pageHeight 10 10 b hy (by norm_num) (by norm_num)
      (by rw [hM, hF]; linarith)
    constructor <;> linarith [hsep.1, hsep.2]
  · rw [addScoreGrid_y]
    exact simpleBound pageWidth pageHeight 20 15 b hy (by norm_num) (by norm_num)
      (by rw [hM, hF]; linarith)
  · intro hh
    exact addBodyText_bound split pageWidth pageHeight s style b hy hh
  · intro hall hnl
    by_cases hemp : items.isEmpty = true
    · unfold addBulletList
      rw [if_pos hemp]
      exact addBodyText_bound split pageWidth pageHeight "None listed" .italic b hy hnl
    · unfold addBulletList
      rw [if_neg hemp]
      refine bulletItems_bound split pageWidth pageHeight items b ?_ hy hall
      intro hnil
      exact hemp (by rw [hnil]; rfl)
  · intro ht
    exact addSummaryTable_bound split pageWidth pageHeight cs b hy ht
  · intro hf
    exact addStyledSection_bound pageWidth pageHeight t f b hy hf

/-- Witness for C5 (amended) from offset 100 on page 1 of an A4 page,
with a one-candidate table and a content procedure that parks the
cursor at offset 20. -/
theorem C5_offset_amended_witness :
    (MARGIN ≤ (addSummaryTable splitOne 210 297 [sampleCandidate] w5b).y
      ∧ (addSummaryTable splitOne 210 297 [sampleCandidate] w5b).y
          ≤ 297 - MARGIN - FOOTER_HEIGHT + 5)
    ∧ MARGIN ≤ (addHeader 210 297 "T" w5b).y
    ∧ MARGIN ≤ (addStyledSection 210 297 "T" c5f w5b).y := by
  have H := C5_renderer_offset_amended splitOne 210 297 "T" "B" ["i"] [sampleCandidate]
    sampleScores c5f .normal w5b (by norm_num) (by with_unfolding_all decide)
  refine ⟨?_, ?_, ?_⟩
  · exact H.2.2.2.2.2.2.2.1 (by with_unfolding_all decide)
  · exact H.1.1
  · refine (H.2.2.2.2.2.2.2.2 ?_).1
    intro u _
    constructor
    · show MARGIN ≤ (20 : ℚ)
      norm_num [MARGIN]
    · show (20 : ℚ) ≤ 297 - MARGIN - FOOTER_HEIGHT
      norm_num [MARGIN, FOOTER_HEIGHT]

-- Page effect of each renderer (definitional).

theorem addHeader_pageNumber (pageWidth pageHeight : ℚ) (t : String) (b : Builder) :
    (addHeader pageWidth pageHeight t b).pageNumber
      = (checkAndAddPage pageWidth pageHeight 20 b).pageNumber := rfl

theorem addSubheader_pageNumber (pageWidth pageHeight : ℚ) (t : String) (b : Builder) :
    (addSubheader pageWidth pageHeight t b).pageNumber
      = (checkAndAddPage pageWidth pageHeight 15 b).pageNumber := rfl

theorem addSectionTitle_pageNumber (pageWidth pageHeight : ℚ) (t : String) (b : Builder) :
    (addSectionTitle pageWidth pageHeight t b).pageNumber
      = (checkAndAddPage pageWidth pageHeight 10 b).pageNumber := rfl

theorem addSeparator_pageNumber (pageWidth pageHeight : ℚ) (b : Builder) :
    (addSeparator pageWidth pageHeight b).pageNumber
      = (checkAndAddPage pageWidth pageHeight 10 b).pageNumber := rfl

theorem addScoreGrid_pageNumber (pageWidth pageHeight : ℚ) (sc : CandidateScores) (b : Builder) :
    (addScoreGrid pageWidth pageHeight sc b).pageNumber
      = (checkAndAddPage pageWidth pageHeight 20 b).pageNumber := rfl

theorem addBodyText_some_pageNumber (split : String → ℚ → List String) (pageWidth pageHeight : ℚ)
    (s : String) (style : FontStyle) (b : Builder) :
    (addBodyText split pageWidth pageHeight (some s) style b).pageNumber
      = (checkAndAddPage pageWidth pageHeight (textBlockHeight split s (contentWidth pageWidth)) b).pageNumber := rfl

theorem addSummaryTable_pageNumber (split : String → ℚ → List String) (pageWidth pageHeight : ℚ)
    (cs : List CandidateResult) (b : Builder) :
    (addSummaryTable split pageWidth pageHeight cs b).pageNumber
      = (checkAndAddPage pageWidth pageHeight (((cs.length : ℚ) + 1) * 8) b).pageNumber := by
  rw [summaryTable_spec]

theorem checkAndAddPage_page_eq (pageWidth pageHeight h : ℚ) (b : Builder)
    (hp : (checkAndAddPage pageWidth pageHeight h b).pageNumber = b.pageNumber) :
    checkAndAddPage pageWidth pageHeight h b = b := by
  rcases checkAndAddPage_cases pageWidth pageHeight h b with ⟨heq, _⟩ | ⟨_, hpp⟩
  · exact heq
  · rw [hpp] at hp
    exact absurd hp (Nat.succ_ne_self _)

theorem offsetMono_addPage (pageWidth : ℚ) : OffsetMono (addPage pageWidth) := by
  intro b
  rw [addPage_pageNumber]
  exact ⟨Nat.le_succ _, fun h => absurd h (Nat.succ_ne_self _)⟩

theorem offsetMono_checkAndAddPage (pageWidth pageHeight h : ℚ) :
    OffsetMono (checkAndAddPage pageWidth pageHeight h) := by
  intro b
  rcases checkAndAddPage_cases pageWidth pageHeight h b with ⟨heq, _⟩ | ⟨_, hpp⟩
  · rw [heq]
    exact ⟨le_rfl, fun _ => le_rfl⟩
  · rw [hpp]
    exact ⟨Nat.le_succ _, fun h => absurd h (Nat.succ_ne_self _)⟩

/-- Any renderer whose page index equals that of a single capacity check
and whose offset dominates the post-check offset is offset-monotone. -/
theorem offsetMono_of_check (pageWidth pageHeight h : ℚ) (R : Builder → Builder)
    (hp : ∀ b, (R b).pageNumber = (checkAndAddPage pageWidth pageHeight h b).pageNumber)
    (hy : ∀ b, (checkAndAddPage pageWidth pageHeight h b).y ≤ (R b).y) : OffsetMono R := by
  intro b
  rcases checkAndAddPage_cases pageWidth pageHeight h b with ⟨heq, _⟩ | ⟨_, hpp⟩
  · refine ⟨?_, fun _ => ?_⟩
    · rw [hp b, heq]
    · have := hy b
      rw [heq] at this
      exact this
  · refine ⟨?_, fun hcon => ?_⟩
    · rw [hp b, hpp]
      exact Nat.le_succ _
    · rw [hp b, hpp] at hcon
      exact absurd hcon (Nat.succ_ne_self _)

theorem OffsetMono.comp (f g : Builder → Builder) (hf : OffsetMono f) (hg : OffsetMono g) :
    OffsetMono (fun b => g (f b)) := by
  intro b
  obtain ⟨p1, y1⟩ := hf b
  obtain ⟨p2, y2⟩ := hg (f b)
  refine ⟨le_trans p1 p2, fun h => ?_⟩
  have e1 : (f b).pageNumber = b.pageNumber := le_antisymm (h ▸ p2) p1
  have e2 : (g (f b)).pageNumber = (f b).pageNumber := by rw [h, e1]
  exact le_trans (y1 e1) (y2 e2)

theorem offsetMono_addHeader (pageWidth pageHeight : ℚ) (t : String) :
    OffsetMono (addHeader pageWidth pageHeight t) := by
  refine offsetMono_of_check pageWidth pageHeight 20 _ (addHeader_pageNumber pageWidth pageHeight t) ?_
  intro b
  rw [addHeader_y]
  have : FONT_SIZES_H1 * (7 / 10) = 14 := by norm_num [FONT_SIZES_H1]
  linarith

theorem offsetMono_addSubheader (pageWidth pageHeight : ℚ) (t : String) :
    OffsetMono (addSubheader pageWidth pageHeight t) := by
  refine offsetMono_of_check pageWidth pageHeight 15 _ (addSubheader_pageNumber pageWidth pageHeight t) ?_
  intro b
  rw [addSubheader_y]
  have : FONT_SIZES_H2 * (9 / 10) = 72 / 5 := by norm_num [FONT_SIZES_H2]
  linarith

theorem offsetMono_addSectionTitle (pageWidth pageHeight : ℚ) (t : String) :
    OffsetMono (addSectionTitle pageWidth pageHeight t) := by
  refine offsetMono_of_check pageWidth pageHeight 10 _ (addSectionTitle_pageNumber pageWidth pageHeight t) ?_
  intro b
  rw [addSectionTitle_y]
  have : FONT_SIZES_H3 * (7 / 10) = 42 / 5 := by norm_num [FONT_SIZES_H3]
  linarith

theorem offsetMono_addSeparator (pageWidth pageHeight : ℚ) :
    OffsetMono (addSeparator pageWidth pageHeight) := by
  refine offsetMono_of_check pageWidth pageHeight 10 _ (addSeparator_pageNumber pageWidth pageHeight) ?_
  intro b
  rw [addSeparator_y]
  linarith

theorem offsetMono_addScoreGrid (pageWidth pageHeight : ℚ) (sc : CandidateScores) :
    OffsetMono (addScoreGrid pageWidth pageHeight sc) := by
  refine offsetMono_of_check pageWidth pageHeight 20 _ (addScoreGrid_pageNumber pageWidth pageHeight sc) ?_
  intro b
  rw [addScoreGrid_y]
  linarith

theorem offsetMono_addBodyText (split : String → ℚ → List String) (pageWidth pageHeight : ℚ)
    (tx : Option String) (style : FontStyle) :
    OffsetMono (addBodyText split pageWidth pageHeight tx style) := by
  cases tx with
  | none => exact fun b => ⟨le_rfl, fun _ => le_rfl⟩
  | some s =>
    refine offsetMono_of_check pageWidth pageHeight (textBlockHeight split s (contentWidth pageWidth)) _
      (addBodyText_some_pageNumber split pageWidth pageHeight s style) ?_
    intro b
    rw [addBodyText_some_y]
    linarith [textBlockHeight_nonneg split s (contentWidth pageWidth)]

theorem bulletItems_cons (split : String → ℚ → List String) (pageWidth pageHeight : ℚ)
    (item : String) (rest : List String) (b : Builder) :
    bulletItems split pageWidth pageHeight (item :: rest) b
      = bulletItems split pageWidth pageHeight rest (bulletStep split pageWidth pageHeight item b) := rfl

theorem offsetMono_bulletStep (split : String → ℚ → List String) (pageWidth pageHeight : ℚ)
    (item : String) : OffsetMono (bulletStep split pageWidth pageHeight item) := by
  refine offsetMono_of_check pageWidth pageHeight
    (textBlockHeight split item (contentWidth pageWidth - 5)) _ (fun b => rfl) ?_
  intro b
  show (checkAndAddPage pageWidth pageHeight (textBlockHeight split item (contentWidth pageWidth - 5)) b).y
    ≤ (checkAndAddPage pageWidth pageHeight (textBlockHeight split item (contentWidth pageWidth - 5)) b).y
      + textBlockHeight split item (contentWidth pageWidth - 5)
  linarith [textBlockHeight_nonneg split item (contentWidth pageWidth - 5)]

theorem offsetMono_bulletItems (split : String → ℚ → List String) (pageWidth pageHeight : ℚ)
    (items : List String) : OffsetMono (bulletItems split pageWidth pageHeight items) := by
  induction items with
  | nil => exact fun b => ⟨le_rfl, fun _ => le_rfl⟩
  | cons item rest ih =>
    intro b
    rw [bulletItems_cons]
    exact OffsetMono.comp (bulletStep split pageWidth pageHeight item)
      (bulletItems split pageWidth pageHeight rest)
      (offsetMono_bulletStep split pageWidth pageHeight item) ih b

theorem offsetMono_addBulletList (split : String → ℚ → List String) (pageWidth pageHeight : ℚ)
    (items : List String) : OffsetMono (addBulletList split pageWidth pageHeight items) := by
  by_cases hemp : items.isEmpty = true
  · intro b
    unfold addBulletList
    rw [if_pos hemp]
    exact offsetMono_addBodyText split pageWidth pageHeight (some "None listed") .italic b
  · intro b
    unfold addBulletList
    rw [if_neg hemp]
    exact offsetMono_bulletItems split pageWidth pageHeight items b

theorem offsetMono_addSummaryTable (split : String → ℚ → List String) (pageWidth pageHeight : ℚ)
    (cs : List CandidateResult) : OffsetMono (addSummaryTable split pageWidth pageHeight cs) := by
  refine offsetMono_of_check pageWidth pageHeight (((cs.length : ℚ) + 1) * 8) _
    (addSummaryTable_pageNumber split pageWidth pageHeight cs) ?_
  intro b
  rw [addSummaryTable_y]
  have h8 : (0:ℚ) ≤ ((cs.length : ℚ) + 1) * 8 := by positivity
  linarith

theorem pageMono_styledRedraw (pageWidth pageHeight : ℚ) (t : String) (f : Builder → Builder)
    (fromY : ℚ) (hfp : ∀ u : Builder, u.pageNumber ≤ (f u).pageNumber) :
    ∀ u : Builder, u.pageNumber ≤ (styledRedraw pageWidth pageHeight t f fromY u).pageNumber := by
  intro u
  unfold styledRedraw
  dsimp only
  refine le_trans ?_ (hfp _)
  show u.pageNumber ≤ (addSectionTitle pageWidth pageHeight t { u with y := fromY }).pageNumber
  exact (offsetMono_addSectionTitle pageWidth pageHeight t { u with y := fromY }).1

theorem styledFirstPart_page_mono (pageWidth pageHeight : ℚ) (t : String) (f : Builder → Builder)
    (b : Builder) (hfp : ∀ u : Builder, u.pageNumber ≤ (f u).pageNumber) :
    b.pageNumber ≤ (styledFirstPart pageWidth pageHeight t f b).1.pageNumber := by
  rw [styledFirstPart_fst]
  refine le_trans ?_ (hfp _)
  show b.pageNumber ≤ (addSectionTitle pageWidth pageHeight t
    { checkAndAddPage pageWidth pageHeight 15 b with
      y := (checkAndAddPage pageWidth pageHeight 15 b).y + 5 }).pageNumber
  refine le_trans (offsetMono_checkAndAddPage pageWidth pageHeight 15 b).1 ?_
  exact (offsetMono_addSectionTitle pageWidth pageHeight t
    { checkAndAddPage pageWidth pageHeight 15 b with
      y := (checkAndAddPage pageWidth pageHeight 15 b).y + 5 }).1

theorem styled_page_mono (pageWidth pageHeight : ℚ) (t : String) (f : Builder → Builder)
    (b : Builder) (hf : OffsetMono f) :
    b.pageNumber ≤ (addStyledSection pageWidth pageHeight t f b).pageNumber := by
  unfold addStyledSection
  dsimp only
  split
  · refine le_trans (styledFirstPart_page_mono pageWidth pageHeight t f b (fun u => (hf u).1))
      (pageMono_styledRedraw pageWidth pageHeight t f
        ((styledFirstPart pageWidth pageHeight t f b).2.2 - 7) (fun u => (hf u).1)
        { (styledFirstPart pageWidth pageHeight t f b).1 with
          y := (styledFirstPart pageWidth pageHeight t f b).1.y + 5 })
  · refine le_trans (styledFirstPart_page_mono pageWidth pageHeight t f b (fun u => (hf u).1))
      (pageMono_styledRedraw pageWidth pageHeight t f
        ((styledFirstPart pageWidth pageHeight t f b).2.2 - 7) (fun u => (hf u).1)
        (({ (styledFirstPart pageWidth pageHeight t f b).1 with
            y := (styledFirstPart pageWidth pageHeight t f b).1.y + 5 }).paint
          (.rectOp MARGIN (styledFirstPart pageWidth pageHeight t f b).2.1 (contentWidth pageWidth)
            ((styledFirstPart pageWidth pageHeight t f b).1.y + 5
              - (styledFirstPart pageWidth pageHeight t f b).2.1) true)))

theorem styled_page_eq_y (pageWidth pageHeight : ℚ) (t : String) (f : Builder → Builder)
    (b : Builder) (hf : OffsetMono f)
    (hp : (addStyledSection pageWidth pageHeight t f b).pageNumber = b.pageNumber) :
    b.y ≤ (addStyledSection pageWidth pageHeight t f b).y := by
  have hge : (styledFirstPart pageWidth pageHeight t f b).1.pageNumber
      ≤ (addStyledSection pageWidth pageHeight t f b).pageNumber := by
    unfold addStyledSection
    dsimp only
    split
    · exact pageMono_styledRedraw pageWidth pageHeight t f
        ((styledFirstPart pageWidth pageHeight t f b).2.2 - 7) (fun u => (hf u).1)
        { (styledFirstPart pageWidth pageHeight t f b).1 with
          y := (styledFirstPart pageWidth pageHeight t f b).1.y + 5 }
    · exact pageMono_styledRedraw pageWidth pageHeight t f
        ((styledFirstPart pageWidth pageHeight t f b).2.2 - 7) (fun u => (hf u).1)
        (({ (styledFirstPart pageWidth pageHeight t f b).1 with
            y := (styledFirstPart pageWidth pageHeight t f b).1.y + 5 }).paint
          (.rectOp MARGIN (styledFirstPart pageWidth pageHeight t f b).2.1 (contentWidth pageWidth)
            ((styledFirstPart pageWidth pageHeight t f b).1.y + 5
              - (styledFirstPart pageWidth pageHeight t f b).2.1) true))
  have hle2 := styledFirstPart_page_mono pageWidth pageHeight t f b (fun u => (hf u).1)
  have heq : (styledFirstPart pageWidth pageHeight t f b).1.pageNumber = b.pageNumber := by omega
  rw [styled_y]
  rw [styledFirstPart_fst] at heq ⊢
  set u1 := checkAndAddPage pageWidth pageHeight 15 b with hu1
  set B2 := addSectionTitle pageWidth pageHeight t { u1 with y := u1.y + 5 } with hB2
  dsimp only at heq ⊢
  have p1 : b.pageNumber ≤ u1.pageNumber := by
    rw [hu1]
    exact (offsetMono_checkAndAddPage pageWidth pageHeight 15 b).1
  have p2 : u1.pageNumber ≤ B2.pageNumber := by
    rw [hB2]
    exact (offsetMono_addSectionTitle pageWidth pageHeight t { u1 with y := u1.y + 5 }).1
  have p3 : B2.pageNumber ≤ (f { B2 with y := B2.y + 2 }).pageNumber := (hf { B2 with y := B2.y + 2 }).1
  have e1 : u1.pageNumber = b.pageNumber := by omega
  have e2 : B2.pageNumber = u1.pageNumber := by omega
  have e3 : (f { B2 with y := B2.y + 2 }).pageNumber = ({ B2 with y := B2.y + 2 } : Builder).pageNumber := by
    show (f { B2 with y := B2.y + 2 }).pageNumber = B2.pageNumber
    omega
  have hub : u1 = b := by
    have e1c := e1
    rw [hu1] at e1c
    rw [hu1]
    exact checkAndAddPage_page_eq pageWidth pageHeight 15 b e1c
  have y2 : ({ u1 with y := u1.y + 5 } : Builder).y ≤ B2.y := by
    rw [hB2]
    refine (offsetMono_addSectionTitle pageWidth pageHeight t { u1 with y := u1.y + 5 }).2 ?_
    rw [← hB2]
    show B2.pageNumber = u1.pageNumber
    omega
  have y3 : ({ B2 with y := B2.y + 2 } : Builder).y ≤ (f { B2 with y := B2.y + 2 }).y := (hf _).2 e3
  have hyu : u1.y = b.y := by rw [hub]
  have y2b : u1.y + 5 ≤ B2.y := y2
  have y3b : B2.y + 2 ≤ (f { B2 with y := B2.y + 2 }).y := y3
  linarith

theorem offsetMono_addStyledSection (pageWidth pageHeight : ℚ) (t : String) (f : Builder → Builder)
    (hf : OffsetMono f) : OffsetMono (addStyledSection pageWidth pageHeight t f) :=
  fun b => ⟨styled_page_mono pageWidth pageHeight t f b hf,
    fun hp => styled_page_eq_y pageWidth pageHeight t f b hf hp⟩

/-- C6: `addPage` (the spec's `beginPage`) increments the page counter
and resets the offset to the margin; every other engine operation is
offset-monotone — it never decreases the vertical offset unless it
incremented the page counter (i.e. unless `addPage` ran inside it), for
the styled section under the assumption that its content procedure is
itself offset-monotone. -/
theorem C6_offset_monotone (split : String → ℚ → List String) (pageWidth pageHeight h : ℚ)
    (t : String) (tx : Option String) (style : FontStyle) (items : List String)
    (cs : List CandidateResult) (sc : CandidateScores) (f : Builder → Builder) :
    (∀ b : Builder, (addPage pageWidth b).pageNumber = b.pageNumber + 1
      ∧ (addPage pageWidth b).y = MARGIN)
    ∧ OffsetMono (addPage pageWidth)
    ∧ OffsetMono (checkAndAddPage pageWidth pageHeight h)
    ∧ OffsetMono (addPageHeader pageWidth)
    ∧ OffsetMono (addHeader pageWidth pageHeight t)
    ∧ OffsetMono (addSubheader pageWidth pageHeight t)
    ∧ OffsetMono (addSectionTitle pageWidth pageHeight t)
    ∧ OffsetMono (addBodyText split pageWidth pageHeight tx style)
    ∧ OffsetMono (addBulletList split pageWidth pageHeight items)
    ∧ OffsetMono (addScoreGrid pageWidth pageHeight sc)
    ∧ OffsetMono (addSummaryTable split pageWidth pageHeight cs)
    ∧ OffsetMono (addSeparator pageWidth pageHeight)
    ∧ (OffsetMono f → OffsetMono (addStyledSection pageWidth pageHeight t f)) :=
  ⟨fun b => ⟨addPage_pageNumber pageWidth b, addPage_y pageWidth b⟩,
   offsetMono_addPage pageWidth,
   offsetMono_checkAndAddPage pageWidth pageHeight h,
   fun _ => ⟨le_rfl, fun _ => le_rfl⟩,
   offsetMono_addHeader pageWidth pageHeight t,
   offsetMono_addSubheader pageWidth pageHeight t,
   offsetMono_addSectionTitle pageWidth pageHeight t,
   offsetMono_addBodyText split pageWidth pageHeight tx style,
   offsetMono_addBulletList split pageWidth pageHeight items,
   offsetMono_addScoreGrid pageWidth pageHeight sc,
   offsetMono_addSummaryTable split pageWidth pageHeight cs,
   offsetMono_addSeparator pageWidth pageHeight,
   fun hf => offsetMono_addStyledSection pageWidth pageHeight t f hf⟩

/-- Witness for C6 on a concrete state: `addPage` resets to the margin
and increments the page, and a styled section with identity content run
from offset 20 does not decrease the offset (its page stays 1). -/
theorem C6_offset_monotone_witness :
    ((addPage 210 c6b).pageNumber = c6b.pageNumber + 1 ∧ (addPage 210 c6b).y = MARGIN)
    ∧ c6b.y ≤ (addStyledSection 210 297 "T" (fun u => u) c6b).y := by
  have H := C6_offset_monotone splitOne 210 297 50 "T" none .normal ["i"]
    [sampleCandidate] sampleScores (fun u : Builder => u)
  refine ⟨H.1 c6b, ?_⟩
  have hid : OffsetMono (fun u : Builder => u) := fun u => ⟨le_rfl, fun _ => le_rfl⟩
  exact (H.2.2.2.2.2.2.2.2.2.2.2.2 hid c6b).2 (by with_unfolding_all decide)
